import Mathlib

/-!
Verification development for the Infinity Events MCP server
(`src/infinity_mcp.py`, class `InfinityEventsMCPServer`).

The Python source is shallowly embedded:
* pure helpers (`parse_timeframe`, `parse_query_to_filter`) become Lean
  functions over `String`/`List Char`;
* the regex searches used by the source are implemented directly for the
  concrete patterns appearing in the source (digit runs, literal words
  separated by whitespace runs, keyword-adjacent dotted-quad extraction);
  these patterns contain no construct for which greedy maximal-munch
  scanning differs from Python's backtracking search, so the embedding is
  exact for them;
* Python `datetime`/`timedelta` arithmetic is embedded as natural-number
  seconds, with the documented `OverflowError` bounds made explicit
  (`timedelta` normalizes to days and raises when |days| > 999,999,999;
  `datetime` subtraction raises when the result falls below
  `datetime.min`, year 1);
* the HTTP-facing methods (`authenticate`, `search_logs`,
  `check_task_status`, `retrieve_logs`, `get_all_logs`) become pure
  functions over an explicit environment of scripted HTTP responses, an
  explicit token state, and an explicit clock, returning their result
  together with the list of outward calls they perform (bearer tokens,
  sleeps), so that call counts and token usage are provable facts.
-/

namespace InfinityMCP

/-- Log records are opaque JSON objects in the source; modelled as strings. -/
abbrev Rec := String

/-- Python `str.lower()` (ASCII case mapping; all text the source compares
against is ASCII). -/
def pyLower (s : String) : String := String.mk (s.data.map Char.toLower)

/-- Python's `\s` character class (ASCII part; the source strings are ASCII). -/
def pySpace (c : Char) : Bool :=
  c = ' ' || c = '\t' || c = '\n' || c = '\r' || c = '\x0b' || c = '\x0c'

/-- Scan positions of `cs` left to right, returning the first success of the
position matcher `m` (the shape of Python `re.search`). -/
def searchOpt {α : Type} (m : List Char → Option α) : List Char → Option α
  | [] => none
  | c :: rest =>
    match m (c :: rest) with
    | some v => some v
    | none => searchOpt m rest

/-- Python's substring test `pat in s`. -/
def containsStr (s pat : String) : Bool :=
  if pat.data.isEmpty then true
  else (searchOpt (fun cs => if pat.data.isPrefixOf cs then some () else none) s.data).isSome

/-- Numeric value of a digit run, as produced by Python `int(match.group(1))`
(arbitrary precision, so plain `Nat`). -/
def digitsVal (ds : List Char) : Nat :=
  ds.foldl (fun n c => 10 * n + (c.toNat - 48)) 0

/-- Match Python regex `(\d+)\s*u` at the head of `cs` (where `u` is the unit
letter; the optional trailing `(?:ours?)?` etc. of the source patterns never
affects match success). Returns the value of group 1. Digits, whitespace and
the unit letter are pairwise disjoint character classes, so greedy
maximal-munch is exact here. -/
def matchNumUnitAt (u : Char) (cs : List Char) : Option Nat :=
  let ds := cs.takeWhile Char.isDigit
  if ds.isEmpty then none
  else
    match (cs.dropWhile Char.isDigit).dropWhile pySpace with
    | c :: _ => if c = u then some (digitsVal ds) else none
    | [] => none

/-- Match Python regex `last\s+(\d+)\s*u` at the head of `cs`. -/
def matchLastNumUnitAt (u : Char) (cs : List Char) : Option Nat :=
  match cs with
  | 'l' :: 'a' :: 's' :: 't' :: rest =>
    match rest with
    | c :: _ =>
      if pySpace c then matchNumUnitAt u (rest.dropWhile pySpace) else none
    | [] => none
  | _ => none

/-- The three time units of the source's pattern table. -/
inductive TUnit | hours | days | weeks
deriving DecidableEq, Repr

/-- Seconds per unit (`timedelta(hours/days/weeks = value)`). -/
def unitSeconds : TUnit → Nat
  | .hours => 3600
  | .days => 86400
  | .weeks => 604800

/-- The source's ordered pattern list (source lines 43-50): the `last`-prefixed
patterns for hours/days/weeks, then the bare ones, first match (by pattern
order) wins. -/
def timeframePatterns : List ((List Char → Option Nat) × TUnit) :=
  [ (matchLastNumUnitAt 'h', .hours),
    (matchLastNumUnitAt 'd', .days),
    (matchLastNumUnitAt 'w', .weeks),
    (matchNumUnitAt 'h', .hours),
    (matchNumUnitAt 'd', .days),
    (matchNumUnitAt 'w', .weeks) ]

/-- The first pattern (in table order) that `re.search` finds in the lowered
timeframe text, with its captured numeric value. -/
def firstTimeframeMatch (lowered : String) : Option (Nat × TUnit) :=
  timeframePatterns.findSome? fun pu =>
    (searchOpt pu.1 lowered.data).map (fun v => (v, pu.2))

/-- `{startTime, endTime}` of the produced window, in seconds since Python's
`datetime.min` (0001-01-01T00:00:00). -/
structure TimeWindow where
  startTime : Nat
  endTime : Nat
deriving DecidableEq, Repr

/-- Largest number of seconds representable by a nonnegative Python
`timedelta`: 999,999,999 days, 23:59:59 (constructing a larger one raises
`OverflowError`). -/
def timedeltaMaxSeconds : Nat := 999999999 * 86400 + 86399

/-- `InfinityEventsMCPServer.parse_timeframe` (source lines 38-73), with the
clock `now` (Python `datetime.utcnow()`) passed explicitly as seconds since
`datetime.min`. A matched pattern subtracts the requested duration from
`now`; no match falls back to a 24-hour lookback. Python raises
`OverflowError` when the `timedelta` exceeds its day bound or when the
subtraction falls below `datetime.min`; both are modelled as `.error`. -/
def parse_timeframe (now : Nat) (timeframe_text : String) : Except String TimeWindow :=
  let lowered := pyLower timeframe_text
  match firstTimeframeMatch lowered with
  | some (v, u) =>
    let secs := v * unitSeconds u
    if timedeltaMaxSeconds < secs then .error "OverflowError"
    else if now < secs then .error "OverflowError"
    else .ok ⟨now - secs, now⟩
  | none =>
    if now < 86400 then .error "OverflowError"
    else .ok ⟨now - 86400, now⟩

/-- Match a sequence of literal words separated by `\s+` (the shape of every
app-name pattern, e.g. `harmony\s+sase`) at the head of `cs`, returning the
matched text (regex group 0) including the actual whitespace runs. -/
def matchWordsAt : List String → List Char → Option (List Char)
  | [], _ => none
  | [w], cs => if w.data.isPrefixOf cs then some w.data else none
  | w :: ws, cs =>
    if w.data.isPrefixOf cs then
      let rest := cs.drop w.data.length
      let sp := rest.takeWhile pySpace
      if sp.isEmpty then none
      else (matchWordsAt ws (rest.drop sp.length)).map (fun m => w.data ++ sp ++ m)
    else none

/-- The source's app-name pattern catalog (source lines 80-89), in order. -/
def appPatterns : List (List String) :=
  [ ["harmony", "sase"],
    ["harmony", "connect"],
    ["harmony", "endpoint"],
    ["harmony", "mobile"],
    ["harmony", "email"],
    ["harmony", "browse"],
    ["quantum", "smart-1", "cloud"],
    ["quantum", "spark"] ]

/-- App-name extraction (source lines 91-96): first pattern in catalog order
whose search succeeds; the matched text is used verbatim (the source's
`.replace(' ', ' ')` replaces a space with a space, a no-op). -/
def app_name_of (ql : String) : Option String :=
  appPatterns.findSome? fun ws =>
    (searchOpt (matchWordsAt ws) ql.data).map (fun cs => String.mk cs)

/-- Match Python regex `(?:kw1|kw2|...)\s*[:\s]*([0-9.]+)` at the head of
`cs`: alternatives tried in order with backtracking, then the group-1 value is
the maximal run of digits/dots (which must be nonempty). `\s*[:\s]*` jointly
accepts any run of whitespace/colons. -/
def matchIpKwAt (kws : List String) (cs : List Char) : Option String :=
  kws.findSome? fun kw =>
    if kw.data.isPrefixOf cs then
      let rest := (cs.drop kw.data.length).dropWhile (fun c => c = ':' || pySpace c)
      let ip := rest.takeWhile (fun c => c.isDigit || c = '.')
      if ip.isEmpty then none else some (String.mk ip)
    else none

/-- Source-IP clause extraction (source lines 125-127). -/
def srcClause (ql : String) : Option String :=
  (searchOpt (matchIpKwAt ["src", "source"]) ql.data).map
    (fun ip => "src:\"" ++ ip ++ "\"")

/-- Destination-IP clause extraction (source lines 130-132). -/
def dstClause (ql : String) : Option String :=
  (searchOpt (matchIpKwAt ["dst", "dest", "destination"]) ql.data).map
    (fun ip => "dst:\"" ++ ip ++ "\"")

/-- Severity clause cascade (source lines 113-122): critical+high together
give an OR-group, then critical, high, medium, low, first satisfied wins. -/
def severityClause (ql : String) : Option String :=
  if containsStr ql "critical" && containsStr ql "high" then
    some "(severity:\"Critical\" OR severity:\"High\")"
  else if containsStr ql "critical" then some "severity:\"Critical\""
  else if containsStr ql "high" then some "severity:\"High\""
  else if containsStr ql "medium" then some "severity:\"Medium\""
  else if containsStr ql "low" then some "severity:\"Low\""
  else none

/-- App-name equality clause (source lines 101, 110). -/
def appClause (a : String) : String := "ci_app_name:\"" ++ a ++ "\""

/-- The phrases that short-circuit filtering (source line 99). -/
def allEventsPhrases : List String :=
  ["all security events", "all events", "security events"]

/-- The `filter_parts` list built for a specific (non-"all events") query,
in the source's append order {app, severity, src, dst} (lines 106-132). -/
def filter_parts_of (ql : String) : List String :=
  ((app_name_of ql).map appClause).toList ++
  (severityClause ql).toList ++
  (srcClause ql).toList ++
  (dstClause ql).toList

/-- `InfinityEventsMCPServer.parse_query_to_filter` (source lines 75-137):
lower the query, extract the first matching app name, short-circuit on any
"all events" phrase, otherwise AND the discovered clauses (or `"*"` when
none). Returns `(app_name or sentinel, filter string)`. -/
def parse_query_to_filter (query : String) : String × String :=
  let ql := pyLower query
  let app_name := app_name_of ql
  if allEventsPhrases.any (fun p => containsStr ql p) then
    match app_name with
    | some a => (a, appClause a)
    | none => ("all_products", "*")
  else
    let parts := filter_parts_of ql
    let filter_string := if parts.isEmpty then "*" else String.intercalate " AND " parts
    (app_name.getD "unknown", filter_string)

/-- The server's token state: `auth_token` and `token_expires_at` are distinct
fields in the source but are only ever written together (source lines
165-167), so they are modelled as one optional pair. -/
structure AuthState where
  tok : Option (String × Nat)
deriving DecidableEq, Repr

/-- Outcome of one HTTP exchange, as the source distinguishes them:
status 200 with JSON `success: true` (typed payload), status 200 with
`success: false`, any other status code (with body text), or a raised
exception (e.g. network failure), whose message the source interpolates. -/
inductive HttpResp (α : Type)
  | success (payload : α)
  | apiFail
  | httpErr (code : Nat) (body : String)
  | exn (msg : String)
deriving DecidableEq

/-- One outward-observable action of the server: an auth call, a search
submission (with bearer token and the `accounts` field actually placed in the
payload), a task-status check, a fixed-length sleep, or a page retrieval. -/
inductive Call
  | auth
  | submit (bearer : String) (accountsField : Option (List String))
  | statusCheck (bearer : String)
  | sleep (secs : Nat)
  | retrievePage (bearer : String) (pageToken : String)
deriving DecidableEq, Repr

/-- Scripted remote behavior for one orchestration run: the auth response,
the submit response, the status response for the i-th status call, the
retrieve response for each page token, plus whether the local file write
(`save_locally` path) raises. -/
structure Env where
  credsPresent : Bool
  authResp : HttpResp String
  submitResp : HttpResp String
  statusResp : Nat → HttpResp (String × List String × List String)
  retrieveResp : String → HttpResp (List Rec × Nat × Option String)
  saveError : Option String

/-- The `HTTP {code}: {body}` error text used across the source. -/
def httpMsg (code : Nat) (body : String) : String :=
  "HTTP " ++ toString code ++ ": " ++ body

/-- `InfinityEventsMCPServer.authenticate` (source lines 139-175): missing
credentials fail without any network call; a 200/`success` response installs
the token with a client-side expiry of now + 30 minutes; other outcomes leave
the state unchanged. Returns (new state, token or error, calls made). -/
def authenticate (env : Env) (now : Nat) (st : AuthState) :
    AuthState × Except String String × List Call :=
  if env.credsPresent then
    match env.authResp with
    | .success token => (⟨some (token, now + 30 * 60)⟩, .ok token, [.auth])
    | .apiFail => (st, .error "Authentication failed - invalid credentials", [.auth])
    | .httpErr c b => (st, .error (httpMsg c b), [.auth])
    | .exn m => (st, .error ("Authentication error: " ++ m), [.auth])
  else
    (st, .error "Missing credentials. Please set CHECKPOINT_CLIENT_ID and CHECKPOINT_ACCESS_KEY environment variables.", [])

/-- Python truthiness of the optional `accounts` argument (source line 195:
`if accounts:` — an empty list is falsy and is not placed in the payload). -/
def accountsField (accounts : Option (List String)) : Option (List String) :=
  match accounts with
  | some l => if l.isEmpty then none else some l
  | none => none

/-- The submit POST itself (source lines 186-214 after the token check):
exactly one HTTP call bearing `token`; 200/`success` yields the `taskId`,
200/failure yields "Search request failed", 429 yields the rate-limit
message, other statuses and exceptions yield their messages. -/
def submitCore (env : Env) (token : String) (accounts : Option (List String)) :
    Except String String × Call :=
  (match env.submitResp with
   | .success taskId => .ok taskId
   | .apiFail => .error "Search request failed"
   | .httpErr 429 _ => .error "Rate limit exceeded. Please wait and try again."
   | .httpErr c b => .error (httpMsg c b)
   | .exn m => .error ("Search error: " ++ m),
   .submit token (accountsField accounts))

/-- `InfinityEventsMCPServer.search_logs` (source lines 177-217): refresh the
token first when it is absent or expired (`not self.auth_token or
time.time() > self.token_expires_at`, line 180), then submit. Returns
(new state, taskId or error, calls made). -/
def search_logs (env : Env) (now : Nat) (st : AuthState)
    (accounts : Option (List String)) :
    AuthState × Except String String × List Call :=
  match st.tok with
  | some (token, exp) =>
    if now ≤ exp then
      let (r, c) := submitCore env token accounts
      (st, r, [c])
    else
      match authenticate env now st with
      | (st1, .ok token1, tr) =>
        let (r, c) := submitCore env token1 accounts
        (st1, r, tr ++ [c])
      | (st1, .error e, tr) => (st1, .error e, tr)
  | none =>
    match authenticate env now st with
    | (st1, .ok token1, tr) =>
      let (r, c) := submitCore env token1 accounts
      (st1, r, tr ++ [c])
    | (st1, .error e, tr) => (st1, .error e, tr)

/-- `InfinityEventsMCPServer.check_task_status` (source lines 219-246): only
the *absence* of a token is checked (line 221) — expiry is not consulted and
no clock is read; with any held token the GET is performed bearing it.
`i` indexes which status call of the run this is. -/
def check_task_status (env : Env) (st : AuthState) (i : Nat) :
    Except String (String × List String × List String) × List Call :=
  match st.tok with
  | none => (.error "No authentication token", [])
  | some (token, _) =>
    (match env.statusResp i with
     | .success p => .ok p
     | .apiFail => .error "Status check failed"
     | .httpErr c b => .error (httpMsg c b)
     | .exn m => .error ("Status check error: " ++ m),
     [.statusCheck token])

/-- `InfinityEventsMCPServer.retrieve_logs` (source lines 248-285): again only
token *absence* is checked (line 250); the POST is performed bearing the held
token regardless of expiry. 429 is a distinct message. -/
def retrieve_logs (env : Env) (st : AuthState) (page_token : String) :
    Except String (List Rec × Nat × Option String) × List Call :=
  match st.tok with
  | none => (.error "No authentication token", [])
  | some (token, _) =>
    (match env.retrieveResp page_token with
     | .success p => .ok p
     | .apiFail => .error "Log retrieval failed"
     | .httpErr 429 _ => .error "Rate limit exceeded. Please wait and try again."
     | .httpErr c b => .error (httpMsg c b)
     | .exn m => .error ("Retrieval error: " ++ m),
     [.retrievePage token page_token])

/-- Result of the poll loop of `get_all_logs` (source lines 304-326). -/
inductive PollOut
  | ready (pageTokens : List String)
  | taskFailed (errors : List String)
  | statusErr (e : String)
  | unknownState (s : String)
  | timedOut
deriving DecidableEq, Repr

/-- The poll loop body (source lines 307-323), with `attempt` the current
counter value and the second argument the remaining budget
(`max_attempts - attempt`). Each iteration makes one status call; Completed
and Ready exit to pagination, Failed and unknown states exit with errors,
Pending and Processing sleep 2 seconds, increment `attempt` and re-poll.
Exhausting the budget is the source's `attempt >= max_attempts` timeout. -/
def pollFrom (env : Env) (st : AuthState) : Nat → Nat → PollOut × List Call
  | _, 0 => (.timedOut, [])
  | attempt, r + 1 =>
    let (res, tr) := check_task_status env st attempt
    match res with
    | .error e => (.statusErr e, tr)
    | .ok (state, pageTokens, errors) =>
      if state = "Completed" || state = "Ready" then (.ready pageTokens, tr)
      else if state = "Failed" then (.taskFailed errors, tr)
      else if state = "Processing" || state = "Pending" then
        let (o, tr2) := pollFrom env st (attempt + 1) r
        (o, tr ++ [.sleep 2] ++ tr2)
      else (.unknownState state, tr)

/-- The full poll loop: `max_attempts = 30`, `attempt = 0` (source lines
304-305). -/
def pollUntilReady (env : Env) (st : AuthState) : PollOut × List Call :=
  pollFrom env st 0 30

/-- The inner `while next_token:` chain drain (source lines 341-349): keep
retrieving while a `nextPageToken` is present, appending records and adding
reported counts; a failed chained retrieval `break`s, keeping the partial
accumulation. The fuel argument is a model artifact bounding chain length
(Python would loop as long as the remote keeps producing tokens); `none`
means the fuel ran out before the chain did. -/
def chainLoop (env : Env) (st : AuthState) :
    Nat → Option String → List Rec → Nat → Option (List Rec × Nat) × List Call
  | _, none, acc, tot => (some (acc, tot), [])
  | 0, some _, _, _ => (none, [])
  | fuel + 1, some t, acc, tot =>
    let (res, tr) := retrieve_logs env st t
    match res with
    | .ok (recs, cnt, next) =>
      let (o, tr2) := chainLoop env st fuel next (acc ++ recs) (tot + cnt)
      (o, tr ++ tr2)
    | .error _ => (some (acc, tot), tr)

/-- Result of the drain phase (source lines 329-349). -/
inductive DrainOut
  | done (records : List Rec) (total : Nat)
  | abort (e : String)
  | fuelOut
deriving DecidableEq, Repr

/-- The outer `for page_token in page_tokens:` drain (source lines 332-349):
a failed *top-level* retrieval returns that error result, aborting the whole
query; a successful one appends its records, adds its reported count and
drains its chain before moving to the next top-level token. -/
def drainPages (env : Env) (st : AuthState) (fuel : Nat) :
    List String → List Rec → Nat → DrainOut × List Call
  | [], acc, tot => (.done acc tot, [])
  | t :: rest, acc, tot =>
    let (res, tr) := retrieve_logs env st t
    match res with
    | .error e => (.abort e, tr)
    | .ok (recs, cnt, next) =>
      match chainLoop env st fuel next (acc ++ recs) (tot + cnt) with
      | (some (acc2, tot2), tr2) =>
        let (o, tr3) := drainPages env st fuel rest acc2 tot2
        (o, tr ++ tr2 ++ tr3)
      | (none, tr2) => (.fuelOut, tr ++ tr2)

/-- What `get_all_logs` hands back to its caller. `pyNone` is Python's
implicit `None`: the source's step 5 (lines 351-373) only returns inside
`if save_locally:`, so when saving was not requested the function falls off
the end. `pyExn` is an exception escaping `get_all_logs` (the only source of
one in this model is `parse_timeframe` overflowing). `fuelOut` is the model
artifact for an unboundedly chaining remote. -/
inductive GetAllLogsOut
  | errorResult (e : String)
  | taskFailedResult (e : String) (errors : List String)
  | saved (message : String) (filename : String) (total_records : Nat)
      (sample_records : List Rec)
  | pyNone
  | pyExn (e : String)
  | fuelOut
deriving DecidableEq, Repr

/-- `InfinityEventsMCPServer.get_all_logs` (source lines 287-373): parse the
query and timeframe, submit (token handling inside `search_logs`), poll up to
30 times, drain all pages, then either save locally and report a summary
(message, filename, total, first 5 records) or — when `save_locally` is
false — fall off the end, returning Python `None`. `now` stands for both
`datetime.utcnow()` and `time.time()` read during the call. -/
def get_all_logs (env : Env) (query timeframe_text : String)
    (accounts : Option (List String)) (save_locally : Bool)
    (now : Nat) (st : AuthState) (fuel : Nat) : GetAllLogsOut × List Call :=
  let _app_filter := parse_query_to_filter query
  match parse_timeframe now timeframe_text with
  | .error e => (.pyExn e, [])
  | .ok _timeframe =>
    match search_logs env now st accounts with
    | (_, .error e, tr1) => (.errorResult e, tr1)
    | (st1, .ok _taskId, tr1) =>
      match pollUntilReady env st1 with
      | (.statusErr e, tr2) => (.errorResult e, tr1 ++ tr2)
      | (.taskFailed errs, tr2) =>
        (.taskFailedResult "Search task failed" errs, tr1 ++ tr2)
      | (.unknownState s, tr2) =>
        (.errorResult ("Unknown task state: " ++ s), tr1 ++ tr2)
      | (.timedOut, tr2) => (.errorResult "Task timed out", tr1 ++ tr2)
      | (.ready pageTokens, tr2) =>
        match drainPages env st1 fuel pageTokens [] 0 with
        | (.abort e, tr3) => (.errorResult e, tr1 ++ tr2 ++ tr3)
        | (.fuelOut, tr3) => (.fuelOut, tr1 ++ tr2 ++ tr3)
        | (.done recs tot, tr3) =>
          if save_locally then
            match env.saveError with
            | some e =>
              (.errorResult ("Failed to save file: " ++ e), tr1 ++ tr2 ++ tr3)
            | none =>
              let filename := "infinity_events_" ++ toString now ++ ".json"
              (.saved ("Retrieved " ++ toString tot ++ " records and saved to " ++ filename)
                filename tot (recs.take 5), tr1 ++ tr2 ++ tr3)
          else (.pyNone, tr1 ++ tr2 ++ tr3)

/-! ## Scenario environments -/

/-- A fully successful remote: submit yields a task, the first status call is
already Completed with one page token `p1`, and `p1` retrieves two records
with no chained page. -/
def envHappy : Env := {
  credsPresent := true
  authResp := .success "tokA"
  submitResp := .success "task1"
  statusResp := fun _ => .success ("Completed", ["p1"], [])
  retrieveResp := fun t => if t = "p1" then .success (["r1", "r2"], 2, none) else .apiFail
  saveError := none }

/-- The §8 drain scenario: two top-level tokens, the first chains to one
additional page, the second yields none; batch contents and reported counts
are arbitrary. -/
def envC2 (b1 b2 b3 : List Rec) (c1 c2 c3 : Nat) : Env := {
  credsPresent := true
  authResp := .success "tokA"
  submitResp := .success "task1"
  statusResp := fun _ => .success ("Ready", ["t1", "t2"], [])
  retrieveResp := fun t =>
    if t = "t1" then .success (b1, c1, some "t1chain")
    else if t = "t1chain" then .success (b2, c2, none)
    else if t = "t2" then .success (b3, c3, none)
    else .apiFail
  saveError := none }

/-- Like `envC2`, but retrieving the chained page of the first shard fails. -/
def envChainFail (b1 b3 : List Rec) (c1 c3 : Nat) : Env := {
  credsPresent := true
  authResp := .success "tokA"
  submitResp := .success "task1"
  statusResp := fun _ => .success ("Ready", ["t1", "t2"], [])
  retrieveResp := fun t =>
    if t = "t1" then .success (b1, c1, some "t1chain")
    else if t = "t1chain" then .httpErr 500 "boom"
    else if t = "t2" then .success (b3, c3, none)
    else .apiFail
  saveError := none }

/-- Like `envC2`, but retrieving the second *top-level* page fails. -/
def envTopFail (b1 : List Rec) (c1 : Nat) : Env := {
  credsPresent := true
  authResp := .success "tokA"
  submitResp := .success "task1"
  statusResp := fun _ => .success ("Ready", ["t1", "t2"], [])
  retrieveResp := fun t =>
    if t = "t1" then .success (b1, c1, none)
    else if t = "t2" then .httpErr 500 "boom"
    else .apiFail
  saveError := none }

/-- A remote whose submit endpoint answers HTTP 429. The other endpoints are
scripted to raise if they were ever reached. -/
def envRate (body : String) : Env := {
  credsPresent := true
  authResp := .exn "unreached"
  submitResp := .httpErr 429 body
  statusResp := fun _ => .exn "unreached"
  retrieveResp := fun _ => .exn "unreached"
  saveError := none }

/-- A token that is still valid at the clock values used in the scenarios. -/
def stValid : AuthState := ⟨some ("tk", 2000000)⟩

/-! ## Claim theorems -/

/-- C1: against the claim, a run in which submission, polling and every
top-level page retrieval succeed and the caller did not request local saving
returns Python `None` — not a QueryResult. The trace shows the full pipeline
ran (submit, status check, page retrieval of two records), yet the returned
value carries no records, no total, no filter and no timeframe: `get_all_logs`
has no `return` statement on the `save_locally = False` path. -/
theorem c1_get_all_logs_returns_none_without_save :
    get_all_logs envHappy "q" "last 24 hours" none false 1000000 stValid 5
      = (.pyNone, [.submit "tk" none, .statusCheck "tk", .retrievePage "tk" "p1"]) := rfl

/-- C2: in the §8 drain scenario (two top-level tokens, the first chaining
once), the records come back in encounter order `b1 ++ b2 ++ b3`, and the
total is the sum `c1 + c2 + c3` of the batches' *reported* counts — the
counts are arbitrary and independent of the record lists' lengths, so the
total is not `len(records)`. -/
theorem c2_drain_order_and_total (b1 b2 b3 : List Rec) (c1 c2 c3 : Nat) :
    drainPages (envC2 b1 b2 b3 c1 c2 c3) stValid 5 ["t1", "t2"] [] 0
      = (.done (b1 ++ b2 ++ b3) (c1 + c2 + c3),
         [.retrievePage "tk" "t1", .retrievePage "tk" "t1chain",
          .retrievePage "tk" "t2"]) := by
  simp [drainPages, chainLoop, retrieve_logs, envC2, stValid]

/-- C3: a failed *chained* retrieval only truncates its shard — the drain
keeps the records already retrieved (`b1`), moves on to the remaining
top-level token and returns `b1 ++ b3`; a failed *top-level* retrieval aborts
the whole drain with that error and no records, and `get_all_logs` surfaces
exactly that error to the caller. -/
theorem c3_chained_vs_toplevel_failure (b1 b3 : List Rec) (c1 c3 : Nat) :
    (drainPages (envChainFail b1 b3 c1 c3) stValid 5 ["t1", "t2"] [] 0
       = (.done (b1 ++ b3) (c1 + c3),
          [.retrievePage "tk" "t1", .retrievePage "tk" "t1chain",
           .retrievePage "tk" "t2"])) ∧
    (drainPages (envTopFail b1 c1) stValid 5 ["t1", "t2"] [] 0
       = (.abort "HTTP 500: boom",
          [.retrievePage "tk" "t1", .retrievePage "tk" "t2"])) ∧
    (get_all_logs (envTopFail b1 c1) "q" "last 24 hours" none false 1000000 stValid 5).1
       = .errorResult "HTTP 500: boom" := by
  refine ⟨?_, ?_, ?_⟩
  · simp [drainPages, chainLoop, retrieve_logs, envChainFail, stValid, httpMsg]
  · simp [drainPages, chainLoop, retrieve_logs, envTopFail, stValid, httpMsg]
    rfl
  · rfl

/-- C6: an HTTP 429 on the submit call (whatever the response body) surfaces
the distinct rate-limit message, and the whole run performs exactly one
submission — no auth retry, no second submit, no later call of any kind. -/
theorem c6_rate_limited_no_retry (body : String) :
    get_all_logs (envRate body) "critical events" "last 24 hours" none false
        1000000 stValid 5
      = (.errorResult "Rate limit exceeded. Please wait and try again.",
         [.submit "tk" none]) ∧
    search_logs (envRate body) 1000000 stValid none
      = (stValid, .error "Rate limit exceeded. Please wait and try again.",
         [.submit "tk" none]) := ⟨rfl, rfl⟩

/-- Recognize a status-check call in a trace. -/
def isStatusCall : Call → Bool
  | .statusCheck _ => true
  | _ => false

/-- Number of status checks in a trace. -/
def statusCalls (tr : List Call) : Nat := tr.countP isStatusCall

/-- A remote whose task never leaves Processing (and a successful submit). -/
def envAllProc : Env := {
  credsPresent := true
  authResp := .success "tokA"
  submitResp := .success "task1"
  statusResp := fun _ => .success ("Processing", [], [])
  retrieveResp := fun _ => .apiFail
  saveError := none }

/-- The §8 scripted poll sequence: Processing, Processing, then Ready. -/
def envScripted (toks : List String) : Env := {
  credsPresent := true
  authResp := .success "tokA"
  submitResp := .success "task1"
  statusResp := fun i =>
    if i < 2 then .success ("Processing", [], []) else .success ("Ready", toks, [])
  retrieveResp := fun _ => .apiFail
  saveError := none }

/-- The poll loop makes at most `r` status calls with budget `r`, and every
sleep it performs is the fixed 2 seconds. -/
theorem pollFrom_calls_le (env : Env) (st : AuthState) :
    ∀ r a, statusCalls (pollFrom env st a r).2 ≤ r ∧
      ∀ n, Call.sleep n ∈ (pollFrom env st a r).2 → n = 2 := by
  intro r
  induction r with
  | zero => intro a; simp [pollFrom, statusCalls]
  | succ r ih =>
    intro a
    rcases st with ⟨_ | ⟨t, e⟩⟩
    · simp [pollFrom, check_task_status, statusCalls]
    · simp only [pollFrom, check_task_status]
      rcases env.statusResp a with ⟨⟨state, toks, errs⟩⟩ | _ | ⟨c, b⟩ | m
      · by_cases h1 : (state = "Completed" || state = "Ready") = true
        · simp [h1, statusCalls, isStatusCall]
        · by_cases h2 : state = "Failed"
          · simp [h1, h2, statusCalls, isStatusCall]
          · by_cases h3 : (state = "Processing" || state = "Pending") = true
            · obtain ⟨hcalls, hsleep⟩ := ih (a + 1)
              simp only [statusCalls] at hcalls
              simp [h1, h2, h3, statusCalls, isStatusCall, List.countP_cons,
                List.mem_cons]
              constructor
              · omega
              · intro n hn
                exact hsleep n hn
            · simp [h1, h2, h3, statusCalls, isStatusCall]
      · simp [statusCalls, isStatusCall]
      · simp [statusCalls, isStatusCall]
      · simp [statusCalls, isStatusCall]

/-- With a remote stuck in Processing, the poll loop burns its whole budget:
one status call and one 2-second sleep per iteration, ending in timeout. -/
theorem pollFrom_processing (env : Env) (t : String) (e : Nat)
    (h : ∀ i, env.statusResp i = .success ("Processing", [], [])) :
    ∀ r a, pollFrom env ⟨some (t, e)⟩ a r
      = (.timedOut, (List.replicate r [Call.statusCheck t, Call.sleep 2]).flatten) := by
  intro r
  induction r with
  | zero => intro a; simp [pollFrom]
  | succ r ih =>
    intro a
    simp [pollFrom, check_task_status, h a, ih (a + 1), List.replicate_succ]

/-- C5: (1) any run of the poll loop performs at most 30 status checks, and
every sleep it takes is the fixed 2 seconds; (2) a task stuck in
Pending/Processing exhausts all 30 iterations (30 calls, 30 sleeps of 2s) and
times out, which `get_all_logs` surfaces as the "Task timed out" error;
(3) the §8 scripted sequence Processing, Processing, Ready returns Ready
after exactly the third poll — the trace ends at the third status check, so
no further status call is made. -/
theorem c5_poll_bound_and_scripted :
    (∀ env st, statusCalls (pollUntilReady env st).2 ≤ 30 ∧
        ∀ n, Call.sleep n ∈ (pollUntilReady env st).2 → n = 2) ∧
    (∀ env t e, (∀ i, env.statusResp i = .success ("Processing", [], [])) →
        pollUntilReady env ⟨some (t, e)⟩
          = (.timedOut, (List.replicate 30 [Call.statusCheck t, Call.sleep 2]).flatten)) ∧
    (get_all_logs envAllProc "q" "last 24 hours" none false 1000000 stValid 5
       = (.errorResult "Task timed out",
          Call.submit "tk" none ::
            (List.replicate 30 [Call.statusCheck "tk", Call.sleep 2]).flatten)) ∧
    (∀ toks, pollUntilReady (envScripted toks) stValid
        = (.ready toks,
           [.statusCheck "tk", .sleep 2, .statusCheck "tk", .sleep 2,
            .statusCheck "tk"])) := by
  refine ⟨fun env st => pollFrom_calls_le env st 30 0,
          fun env t e h => pollFrom_processing env t e h 30 0, ?_, fun toks => rfl⟩
  rfl

/-- C5 witness: the timeout conjunct applied to the concrete all-Processing
remote. -/
theorem c5_witness :
    pollUntilReady envAllProc ⟨some ("tk", 2000000)⟩
      = (.timedOut, (List.replicate 30 [Call.statusCheck "tk", Call.sleep 2]).flatten) :=
  c5_poll_bound_and_scripted.2.1 envAllProc "tk" 2000000 (fun _ => rfl)

/-- C4 counterexample: with the held token "tk" already expired — expiry 100,
clock at 200 — the status poll and the page retrieval still perform their
HTTP calls bearing "tk": the source's `check_task_status` and `retrieve_logs`
only test `if not self.auth_token:` and never read the clock (their model
functions do not even take `now`), so no fresh token is acquired and the
expired token is sent, contradicting the claim that every authenticated call
carries an unexpired token. -/
theorem c4_expired_token_counterexample :
    100 < 200 ∧
    check_task_status envHappy ⟨some ("tk", 100)⟩ 0
      = (.ok ("Completed", ["p1"], []), [.statusCheck "tk"]) ∧
    retrieve_logs envHappy ⟨some ("tk", 100)⟩ "p1"
      = (.ok (["r1", "r2"], 2, none), [.retrievePage "tk" "p1"]) :=
  ⟨by norm_num, rfl, rfl⟩

/-- C4 amended: only the *submission* path manages token lifetime — with a
valid token it submits directly bearing it; with an absent or expired token
it first acquires a fresh one and submits bearing that fresh token. The
status poll and page retrieval check only token *absence*: with any held
token they call bearing it (expired or not), and with no token they fail
without a network call. -/
theorem c4_token_check_amended :
    (∀ env now st accounts t exp, st.tok = some (t, exp) → now ≤ exp →
        search_logs env now st accounts
          = (st, (submitCore env t accounts).1, [(submitCore env t accounts).2])) ∧
    (∀ env now st accounts t exp token1, st.tok = some (t, exp) → exp < now →
        env.credsPresent = true → env.authResp = .success token1 →
        search_logs env now st accounts
          = (⟨some (token1, now + 30 * 60)⟩, (submitCore env token1 accounts).1,
             [Call.auth, (submitCore env token1 accounts).2])) ∧
    (∀ env now accounts token1,
        env.credsPresent = true → env.authResp = .success token1 →
        search_logs env now ⟨none⟩ accounts
          = (⟨some (token1, now + 30 * 60)⟩, (submitCore env token1 accounts).1,
             [Call.auth, (submitCore env token1 accounts).2])) ∧
    (∀ env st i t exp, st.tok = some (t, exp) →
        (check_task_status env st i).2 = [.statusCheck t]) ∧
    (∀ env i, check_task_status env ⟨none⟩ i = (.error "No authentication token", [])) ∧
    (∀ env st p t exp, st.tok = some (t, exp) →
        (retrieve_logs env st p).2 = [.retrievePage t p]) ∧
    (∀ env p, retrieve_logs env ⟨none⟩ p = (.error "No authentication token", [])) := by
  refine ⟨?_, ?_, ?_, ?_, ?_, ?_, ?_⟩
  · intro env now st accounts t exp h hle
    rcases st with ⟨tok⟩; cases h
    simp [search_logs, hle]
  · intro env now st accounts t exp token1 h hlt hcreds hauth
    rcases st with ⟨tok⟩; cases h
    simp [search_logs, authenticate, hcreds, hauth, Nat.not_le.2 hlt,
      Nat.lt_irrefl]
  · intro env now accounts token1 hcreds hauth
    simp [search_logs, authenticate, hcreds, hauth]
  · intro env st i t exp h
    rcases st with ⟨tok⟩; cases h
    simp [check_task_status]
  · intro env i; rfl
  · intro env st p t exp h
    rcases st with ⟨tok⟩; cases h
    simp [retrieve_logs]
  · intro env p; rfl

/-- C4 amended, witnessed: a valid token at clock 1000000 submits directly
bearing it; token "old" expired at 10 causes one auth call and a submission
bearing the fresh token; the status check with the expired token "old" still
carries "old". -/
theorem c4_token_check_amended_witness :
    search_logs envHappy 1000000 stValid none
      = (stValid, (submitCore envHappy "tk" none).1,
         [(submitCore envHappy "tk" none).2]) ∧
    search_logs envHappy 1000000 ⟨some ("old", 10)⟩ none
      = (⟨some ("tokA", 1000000 + 30 * 60)⟩, (submitCore envHappy "tokA" none).1,
         [Call.auth, (submitCore envHappy "tokA" none).2]) ∧
    (check_task_status envHappy ⟨some ("old", 10)⟩ 0).2 = [.statusCheck "old"] :=
  ⟨c4_token_check_amended.1 envHappy 1000000 stValid none "tk" 2000000 rfl
     (by norm_num),
   c4_token_check_amended.2.1 envHappy 1000000 ⟨some ("old", 10)⟩ none "old" 10
     "tokA" rfl (by norm_num) rfl rfl,
   c4_token_check_amended.2.2.2.1 envHappy ⟨some ("old", 10)⟩ 0 "old" 10 rfl⟩

/-- C7: outside the "all events" short-circuit, the produced filter is the
AND-join of the parts list, whose single optional severity slot follows the
source's mutually exclusive priority cascade — "critical" and "high" together
give the OR-group of both; otherwise "critical" alone gives Critical; else
"high" gives High; else "medium" gives Medium; else "low" gives Low; else no
severity clause. The severity slot is one `Option`, so at most one severity
clause (or OR-group) ever appears per call. -/
theorem c7_severity_cascade (query : String)
    (hno : allEventsPhrases.any (fun p => containsStr (pyLower query) p) = false) :
    (parse_query_to_filter query).2
      = (if (filter_parts_of (pyLower query)).isEmpty then "*"
         else String.intercalate " AND " (filter_parts_of (pyLower query))) ∧
    filter_parts_of (pyLower query)
      = ((app_name_of (pyLower query)).map appClause).toList ++
        (severityClause (pyLower query)).toList ++
        (srcClause (pyLower query)).toList ++
        (dstClause (pyLower query)).toList ∧
    (severityClause (pyLower query)).toList.length ≤ 1 ∧
    (containsStr (pyLower query) "critical" = true →
     containsStr (pyLower query) "high" = true →
        severityClause (pyLower query)
          = some "(severity:\"Critical\" OR severity:\"High\")") ∧
    (containsStr (pyLower query) "critical" = true →
     containsStr (pyLower query) "high" = false →
        severityClause (pyLower query) = some "severity:\"Critical\"") ∧
    (containsStr (pyLower query) "critical" = false →
     containsStr (pyLower query) "high" = true →
        severityClause (pyLower query) = some "severity:\"High\"") ∧
    (containsStr (pyLower query) "critical" = false →
     containsStr (pyLower query) "high" = false →
     containsStr (pyLower query) "medium" = true →
        severityClause (pyLower query) = some "severity:\"Medium\"") ∧
    (containsStr (pyLower query) "critical" = false →
     containsStr (pyLower query) "high" = false →
     containsStr (pyLower query) "medium" = false →
     containsStr (pyLower query) "low" = true →
        severityClause (pyLower query) = some "severity:\"Low\"") ∧
    (containsStr (pyLower query) "critical" = false →
     containsStr (pyLower query) "high" = false →
     containsStr (pyLower query) "medium" = false →
     containsStr (pyLower query) "low" = false →
        severityClause (pyLower query) = none) := by
  refine ⟨?_, rfl, ?_, ?_, ?_, ?_, ?_, ?_, ?_⟩
  · simp [parse_query_to_filter, hno]
  · cases severityClause (pyLower query) <;> simp
  all_goals intro h1 h2
  · simp [severityClause, h1, h2]
  · simp [severityClause, h1, h2]
  · simp [severityClause, h1, h2]
  all_goals intro h3
  · simp [severityClause, h1, h2, h3]
  all_goals intro h4
  · simp [severityClause, h1, h2, h3, h4]
  · simp [severityClause, h1, h2, h3, h4]

/-- C7 witness: "show critical and high alerts" (which contains no "all
events"-style phrase) receives the OR-group of Critical and High. -/
theorem c7_severity_cascade_witness :
    severityClause (pyLower "show critical and high alerts")
      = some "(severity:\"Critical\" OR severity:\"High\")" :=
  (c7_severity_cascade "show critical and high alerts" (by decide)).2.2.2.1
    (by decide) (by decide)

/-- C8: when the query contains one of the "all events" phrases the
translator short-circuits: the result is exactly the product-name equality
clause when an app-name pattern matched, and `("all_products", "*")`
otherwise — the severity and IP extractions are never consulted, so the
filter consists of nothing but the product clause (or `"*"`). -/
theorem c8_all_events_short_circuit (query : String)
    (hyes : allEventsPhrases.any (fun p => containsStr (pyLower query) p) = true) :
    parse_query_to_filter query
      = (match app_name_of (pyLower query) with
         | some a => (a, appClause a)
         | none => ("all_products", "*")) := by
  cases h : app_name_of (pyLower query) <;>
    simp [parse_query_to_filter, hyes, h]

/-- C8 witness: "show all events on harmony sase" short-circuits to only the
product clause, even though severity extraction would have found nothing and
the app pattern did match. -/
theorem c8_all_events_short_circuit_witness :
    parse_query_to_filter "show all events on harmony sase"
      = ("harmony sase", "ci_app_name:\"harmony sase\"") :=
  c8_all_events_short_circuit "show all events on harmony sase" (by decide)

/-- C9 counterexample: "last 0 hours" matches the supported pattern
`last\s+(\d+)\s*h(?:ours?)?` (value 0), yet the translator returns
startTime = endTime — the claimed `startTime < endTime` fails for this
supported phrasing. -/
theorem c9_zero_duration_counterexample :
    firstTimeframeMatch (pyLower "last 0 hours") = some (0, .hours) ∧
    parse_timeframe 1000000 "last 0 hours" = .ok ⟨1000000, 1000000⟩ ∧
    ¬(1000000 < 1000000) := ⟨rfl, rfl, by norm_num⟩

/-- C9 amended: for a matched phrasing whose value is at least 1 and whose
duration stays within the `timedelta`/`datetime` ranges, the window ends at
the current clock, starts strictly earlier, and its gap is exactly the
requested duration; an unmatched phrasing (with the clock at least 24h past
`datetime.min`) gets a gap of exactly 24 hours. -/
theorem c9_window_amended :
    (∀ (now : Nat) (s : String) (v : Nat) (u : TUnit),
        firstTimeframeMatch (pyLower s) = some (v, u) → 1 ≤ v →
        v * unitSeconds u ≤ timedeltaMaxSeconds → v * unitSeconds u ≤ now →
        parse_timeframe now s = .ok ⟨now - v * unitSeconds u, now⟩ ∧
        now - v * unitSeconds u < now ∧
        now - (now - v * unitSeconds u) = v * unitSeconds u) ∧
    (∀ (now : Nat) (s : String), firstTimeframeMatch (pyLower s) = none →
        86400 ≤ now →
        parse_timeframe now s = .ok ⟨now - 86400, now⟩ ∧
        now - (now - 86400) = 86400) := by
  constructor
  · intro now s v u h hv htd hnow
    have hu : 0 < unitSeconds u := by cases u <;> simp [unitSeconds]
    have hpos : 0 < v * unitSeconds u := Nat.mul_pos hv hu
    refine ⟨?_, by omega, by omega⟩
    simp [parse_timeframe, h, Nat.not_lt.2 htd, Nat.not_lt.2 hnow]
  · intro now s h hnow
    refine ⟨?_, by omega⟩
    simp [parse_timeframe, h, Nat.not_lt.2 hnow]

/-- C9 amended, witnessed at "last 3 hours" (3-hour gap) and at the
unrecognized "soon" (24-hour gap). -/
theorem c9_window_amended_witness :
    parse_timeframe 1000000 "last 3 hours"
      = .ok ⟨1000000 - 3 * unitSeconds .hours, 1000000⟩ ∧
    parse_timeframe 1000000 "soon" = .ok ⟨1000000 - 86400, 1000000⟩ :=
  ⟨(c9_window_amended.1 1000000 "last 3 hours" 3 .hours (by decide) (by decide)
      (by decide) (by decide)).1,
   (c9_window_amended.2 1000000 "soon" (by decide) (by decide)).1⟩

/-- C10 counterexample: the extreme numeric value in
"last 100000000000 hours" matches the hours pattern, and the resulting
`timedelta` exceeds Python's 999,999,999-day bound, so `parse_timeframe`
raises OverflowError — it neither returns a window nor falls back to the
24-hour default (the clock value is immaterial; 63,900,000,000 s is roughly
the 2026 UTC clock). -/
theorem c10_overflow_counterexample :
    firstTimeframeMatch (pyLower "last 100000000000 hours")
      = some (100000000000, .hours) ∧
    parse_timeframe 63900000000 "last 100000000000 hours"
      = .error "OverflowError" := ⟨rfl, rfl⟩

/-- C10 amended: timeframe parsing fails only by OverflowError on a *matched*
value whose duration exceeds the `timedelta` day bound or reaches back past
`datetime.min`; for every input that matches no pattern it silently returns
the 24-hour default window (the clock being at least 24h past
`datetime.min`, as any real UTC clock is). -/
theorem c10_fallback_amended :
    (∀ (now : Nat) (s : String) (e : String), 86400 ≤ now →
        parse_timeframe now s = .error e →
        ∃ v u, firstTimeframeMatch (pyLower s) = some (v, u) ∧
          (timedeltaMaxSeconds < v * unitSeconds u ∨ now < v * unitSeconds u)) ∧
    (∀ (now : Nat) (s : String), 86400 ≤ now →
        firstTimeframeMatch (pyLower s) = none →
        parse_timeframe now s = .ok ⟨now - 86400, now⟩) := by
  constructor
  · intro now s e hnow herr
    rcases h : firstTimeframeMatch (pyLower s) with _ | ⟨v, u⟩
    · simp [parse_timeframe, h, Nat.not_lt.2 hnow] at herr
    · simp only [parse_timeframe, h] at herr
      by_cases h1 : timedeltaMaxSeconds < v * unitSeconds u
      · exact ⟨v, u, rfl, .inl h1⟩
      · rw [if_neg h1] at herr
        by_cases h2 : now < v * unitSeconds u
        · exact ⟨v, u, rfl, .inr h2⟩
        · rw [if_neg h2] at herr; cases herr
  · intro now s hnow h
    simp [parse_timeframe, h, Nat.not_lt.2 hnow]

/-- C10 amended, witnessed: the unrecognized "whenever" falls back to the
24-hour window without error. -/
theorem c10_fallback_amended_witness :
    parse_timeframe 1000000 "whenever" = .ok ⟨1000000 - 86400, 1000000⟩ :=
  c10_fallback_amended.2 1000000 "whenever" (by decide) (by decide)

end InfinityMCP
